import Mathlib

/-
Verification of the deltafi-contracts client codec layer.

The embedding models the byte-level behaviour of the TypeScript client in
src/lib/client: buffer-layout primitives (u8, nu64, ns64, 32-byte blobs),
the composite struct layouts (FeesLayout, RewardsLayout, ConfigInfoLayout,
FixedU256Layout, the commented-out FarmLayout) and the instruction
encoders (instructions.ts, instructions/admin.ts).

Buffers are lists of byte values (Nat, little-endian throughout).  The
buffer-layout library walks a struct layout sequentially at accumulating
offsets; since every field here has a fixed span, this is modelled by
readers that consume a prefix of the byte list and return the remaining
suffix.  A bounds-checked numeric read (Node readUInt32LE and friends)
that would run past the end of the buffer throws a RangeError, modelled
as Option.none; the 32-byte blob layout decodes with Buffer.slice, which
silently clamps to the available bytes and never fails.

The nu64 layout (NearUInt64) holds its value in a JavaScript double.  A
BN value (NumberU64) arriving at nu64.encode is coerced through its
decimal string to a double, which rounds integers at and above 2 to the
53rd power to the nearest representable double (ties to even); decode
recombines hi32 and lo32 with a double multiply-add, rounding the same
way.  toDouble below models that rounding exactly on integers.

A Buffer object handed to nu64.encode (the instructions/admin.ts idiom
of passing NumberU64.toBuffer() results into nu64 fields) is coerced by
ToNumber through its UTF-8 string; for the byte strings arising here
that yields NaN, and Node then writes zero bytes without any error.
-/

/-- Error kinds of the codec layer, following the specification names:
structural decode failures (buffer too short, wrong shape), width
overflow at encode time, and the uninitialized-state gate. -/
inductive CodecError
  | structural
  | widthOverflow
  | uninitialized
  deriving DecidableEq, Repr

/-- The four little-endian bytes written by Node writeUInt32LE. -/
def le32 (v : Nat) : List Nat :=
  [v % 256, v / 256 % 256, v / 65536 % 256, v / 16777216 % 256]

/-- Value of a little-endian byte list, least significant byte first,
as recombined by Node readUInt32LE. -/
def leVal : List Nat → Nat
  | [] => 0
  | b :: rest => b + 256 * leVal rest

/-- Number of binary digits, with explicit fuel; every integer in this
development is below 2 to the 64th power, so fuel 128 is never exhausted. -/
def bitLenAux : Nat → Nat → Nat
  | 0, _ => 0
  | fuel + 1, n => if n = 0 then 0 else bitLenAux fuel (n / 2) + 1

/-- Number of binary digits of a natural number. -/
def bitLen (n : Nat) : Nat := bitLenAux 128 n

/-- Rounding of an integer to the nearest IEEE-754 double (ties to even),
restricted to naturals.  Exact below 2 to the 53rd power; above that the
value is rounded to the nearest multiple of its unit in the last place.
This models the JavaScript number that a BN value or an exact integer
sum becomes inside the nu64 layout. -/
def toDouble (v : Nat) : Nat :=
  if v < 9007199254740992 then v
  else
    let ulp := 2 ^ (bitLen v - 53)
    let q := v / ulp
    let r := v % ulp
    if 2 * r < ulp then q * ulp
    else if ulp < 2 * r then (q + 1) * ulp
    else if q % 2 = 0 then q * ulp else (q + 1) * ulp

/-- Signed variant of toDouble, for the ns64 layout. -/
def toDoubleZ (z : Int) : Int :=
  if 0 ≤ z then (toDouble z.toNat : Int) else -(toDouble (-z).toNat : Int)

/-- The u8 layout encode: Node writeUIntLE with one byte validates the
value against the 0..255 range and throws a RangeError otherwise. -/
def u8Write (v : Nat) : Except CodecError (List Nat) :=
  if v < 256 then .ok [v] else .error .widthOverflow

/-- The nu64 layout encode for a numeric source value v (already a
natural): the held double d is split as hi32 = floor(d / 2^32) and
lo32 = d - hi32 * 2^32 (both exact double operations) and the two halves
written little-endian; writeUInt32LE throws a RangeError when hi32
reaches 2^32, i.e. when d rounds up to 2^64. -/
def nu64Write (v : Nat) : Except CodecError (List Nat) :=
  let d := toDouble v
  if d / 4294967296 < 4294967296 then
    .ok (le32 (d % 4294967296) ++ le32 (d / 4294967296))
  else
    .error .widthOverflow

/-- The 8-byte little-endian encoding of a u64 value, as the two le32
halves laid out by the wire format. -/
def le64 (v : Nat) : List Nat := le32 (v % 4294967296) ++ le32 (v / 4294967296)

/-- Modelled from the spec: NumberU64 (src/lib/client/src/util/u64.ts is
referenced throughout but absent from src).  Per sections 3, 4.1 and 4.3
of the spec it wraps an unsigned 64-bit value whose byte form is the
8-byte little-endian encoding, and encoding a value that is negative or
does not fit 64 bits must fail fast at encode time. -/
def NumberU64.toBuffer (v : Int) : Except CodecError (List Nat) :=
  if 0 ≤ v ∧ v < 18446744073709551616 then .ok (le64 v.toNat)
  else .error .widthOverflow

/-- Modelled from the spec: Uint64Layout is imported by instructions.ts
but missing from layout.ts.  Per sections 4.1 and 6 it is the fixed
8-byte unsigned little-endian field; its callers hand it the 8-byte
buffer produced by NumberU64.toBuffer, and a source of any other length
is rejected (blob encode requires a buffer of exactly the declared
span). -/
def uint64LayoutWrite (bs : List Nat) : Except CodecError (List Nat) :=
  if bs.length = 8 then .ok bs else .error .structural

/-- The Uint64Layout blob encode when the caller passes a raw
JavaScript number instead of a Buffer (the farmWithdrawInstruction
idiom): Blob.encode requires a Buffer source of exactly the declared
span and throws a TypeError for any other source, so every call fails,
whatever the numeric value, with the structural kind rather than the
width-overflow kind. -/
def uint64LayoutWriteOfNumber (v : Int) : Except CodecError (List Nat) :=
  let _ := v
  .error .structural

/-- Decimal value of a list of ASCII digit bytes, most significant
first, as string-to-number parsing accumulates it. -/
def digitsVal (bs : List Nat) : Nat :=
  bs.foldl (fun acc b => acc * 10 + (b - 48)) 0

/-- The UTF-8 string of the single ASCII word Infinity, the one 8-byte
buffer content that ToNumber maps to an infinite double. -/
def infinityBytes : List Nat := [73, 110, 102, 105, 110, 105, 116, 121]

/-- ToNumber applied to a Buffer: the buffer is first converted to its
UTF-8 string, then parsed as a string numeric literal.  An 8-byte
little-endian integer buffer parses to a number only when every byte is
an ASCII decimal digit; buffers containing a NUL byte, bytes at or above
128 or other non-numeric characters parse to NaN (modelled as none). -/
def jsNumberOfBytes (bs : List Nat) : Option Nat :=
  if bs ≠ [] ∧ bs.all (fun b => 48 ≤ b ∧ b ≤ 57) then some (digitsVal bs)
  else none

/-- The nu64 layout encode when the source is a Buffer object rather
than a number (the instructions/admin.ts idiom): the buffer is coerced
by ToNumber.  NaN passes the Node range check (all comparisons with NaN
are false) and the byte stores coerce NaN to zero, so eight zero bytes
are written silently; a buffer spelling Infinity makes writeUInt32LE
throw; a digits-only buffer is encoded as its parsed decimal value. -/
def nu64WriteOfSrcBytes (bs : List Nat) : Except CodecError (List Nat) :=
  if bs = infinityBytes then .error .widthOverflow
  else
    match jsNumberOfBytes bs with
    | some v => nu64Write v
    | none => .ok (List.replicate 8 0)

/-- A nested struct layout (FeesLayout or RewardsLayout as an
instruction-data field) whose source is a Buffer object: buffer-layout
Structure.encode looks up each declared property on the source, finds
every lookup undefined on a Buffer, skips every field and advances by
its span, leaving the freshly allocated zero bytes in place and
reporting the full span as written. -/
def structSkipWrite (span : Nat) (srcBytes : List Nat) : List Nat :=
  let _ := srcBytes
  List.replicate span 0

/-- The u8 layout decode: one bounds-checked byte read (readUIntLE with
byte length 1), consuming one byte. -/
def u8ReadC : List Nat → Option (Nat × List Nat)
  | [] => none
  | b :: rest => some (b, rest)

/-- The nu64 layout decode: two bounds-checked readUInt32LE calls; the
value is hi32 * 2^32 + lo32 recombined in double arithmetic, hence
rounded by toDouble.  Consumes eight bytes. -/
def nu64ReadC : List Nat → Option (Nat × List Nat)
  | b0 :: b1 :: b2 :: b3 :: b4 :: b5 :: b6 :: b7 :: rest =>
      some (toDouble (leVal [b0, b1, b2, b3] + 4294967296 * leVal [b4, b5, b6, b7]), rest)
  | _ => none

/-- The ns64 layout decode: readUInt32LE then readInt32LE (two's
complement high half), recombined in double arithmetic.  Consumes eight
bytes. -/
def ns64ReadC : List Nat → Option (Int × List Nat)
  | b0 :: b1 :: b2 :: b3 :: b4 :: b5 :: b6 :: b7 :: rest =>
      let lo := leVal [b0, b1, b2, b3]
      let hiU := leVal [b4, b5, b6, b7]
      let hi : Int := if hiU < 2147483648 then (hiU : Int) else (hiU : Int) - 4294967296
      some (toDoubleZ (hi * 4294967296 + lo), rest)
  | _ => none

/-- The fixed blob layout decode (32-byte public keys and 256-bit
integers): Buffer.slice, which clamps to the available bytes and never
fails; the layout walk still advances by the full declared span. -/
def blobReadC (n : Nat) (bs : List Nat) : List Nat × List Nat :=
  (bs.take n, bs.drop n)

/-- The fee schedule aggregate of struct/fees.ts: eight unsigned 64-bit
fields in the declared FeesLayout order. -/
structure Fees where
  adminTradeFeeNumerator : Nat
  adminTradeFeeDenominator : Nat
  adminWithdrawFeeNumerator : Nat
  adminWithdrawFeeDenominator : Nat
  tradeFeeNumerator : Nat
  tradeFeeDenominator : Nat
  withdrawFeeNumerator : Nat
  withdrawFeeDenominator : Nat
  deriving DecidableEq, Repr

/-- The reward schedule aggregate of struct/rewards.ts: three unsigned
64-bit fields in the declared RewardsLayout order. -/
structure Rewards where
  tradeRewardNumerator : Nat
  tradeRewardDenominator : Nat
  tradeRewardCap : Nat
  deriving DecidableEq, Repr

/-- Struct.toBuffer of struct/struct.ts applied to the Fees data and
FeesLayout: a buffer of the layout span is allocated, every nu64 field
is encoded in declaration order (the NumberU64 field values coerce to
doubles), and the buffer is sliced to the encoded length, which for a
fully populated fixed layout is the whole span of 64 bytes. -/
def Fees.toBuffer (f : Fees) : Except CodecError (List Nat) := do
  let b1 ← nu64Write f.adminTradeFeeNumerator
  let b2 ← nu64Write f.adminTradeFeeDenominator
  let b3 ← nu64Write f.adminWithdrawFeeNumerator
  let b4 ← nu64Write f.adminWithdrawFeeDenominator
  let b5 ← nu64Write f.tradeFeeNumerator
  let b6 ← nu64Write f.tradeFeeDenominator
  let b7 ← nu64Write f.withdrawFeeNumerator
  let b8 ← nu64Write f.withdrawFeeDenominator
  .ok (b1 ++ b2 ++ b3 ++ b4 ++ b5 ++ b6 ++ b7 ++ b8)

/-- Struct.toBuffer applied to the Rewards data and RewardsLayout
(24 bytes). -/
def Rewards.toBuffer (r : Rewards) : Except CodecError (List Nat) := do
  let b1 ← nu64Write r.tradeRewardNumerator
  let b2 ← nu64Write r.tradeRewardDenominator
  let b3 ← nu64Write r.tradeRewardCap
  .ok (b1 ++ b2 ++ b3)

/-- FeesLayout decode: eight nu64 reads in declaration order, consuming
64 bytes; excess bytes beyond the span are left over and ignored. -/
def feesDecodeC (bs : List Nat) : Option (Fees × List Nat) :=
  (nu64ReadC bs).bind fun p1 =>
  (nu64ReadC p1.2).bind fun p2 =>
  (nu64ReadC p2.2).bind fun p3 =>
  (nu64ReadC p3.2).bind fun p4 =>
  (nu64ReadC p4.2).bind fun p5 =>
  (nu64ReadC p5.2).bind fun p6 =>
  (nu64ReadC p6.2).bind fun p7 =>
  (nu64ReadC p7.2).bind fun p8 =>
  some (⟨p1.1, p2.1, p3.1, p4.1, p5.1, p6.1, p7.1, p8.1⟩, p8.2)

/-- Fees.fromBuffer of struct/fees.ts: FeesLayout decode against the
given buffer; a bounds-checked read past the end throws, modelled as
none. -/
def Fees.fromBuffer (bs : List Nat) : Option Fees :=
  (feesDecodeC bs).map Prod.fst

/-- RewardsLayout decode: three nu64 reads, consuming 24 bytes. -/
def rewardsDecodeC (bs : List Nat) : Option (Rewards × List Nat) :=
  (nu64ReadC bs).bind fun p1 =>
  (nu64ReadC p1.2).bind fun p2 =>
  (nu64ReadC p2.2).bind fun p3 =>
  some (⟨p1.1, p2.1, p3.1⟩, p3.2)

/-- Rewards.fromBuffer of struct/rewards.ts. -/
def Rewards.fromBuffer (bs : List Nat) : Option Rewards :=
  (rewardsDecodeC bs).map Prod.fst

/-- The FixedU256 aggregate of layout.ts: two 32-byte opaque blobs,
inner then basePoint. -/
structure FixedU256 where
  inner : List Nat
  basePoint : List Nat
  deriving DecidableEq, Repr

/-- FixedU256Layout decode: two blob reads; Buffer.slice clamps, so the
decode succeeds on any buffer, even one shorter than the 64-byte span,
returning truncated blob fields. -/
def fixedU256Decode (bs : List Nat) : Option FixedU256 :=
  let (innerBytes, r1) := blobReadC 32 bs
  let (basePointBytes, _) := blobReadC 32 r1
  some ⟨innerBytes, basePointBytes⟩

/-- The ConfigInfo aggregate of the ConfigInfoLayout in layout.ts
(src/unnamed/part_001 lines 82 to 94): global pool configuration. -/
structure ConfigInfo where
  isInitialized : Nat
  isPaused : Nat
  ampFactor : Nat
  futureAdminDeadline : Int
  futureAdminKey : List Nat
  adminKey : List Nat
  deltafiMint : List Nat
  fees : Fees
  rewards : Rewards
  deriving DecidableEq, Repr

/-- ConfigInfoLayout decode: u8, u8, nu64, ns64, three 32-byte blobs,
nested FeesLayout, nested RewardsLayout, in declaration order; the
declared span is 202 bytes. -/
def configInfoDecode (bs : List Nat) : Option ConfigInfo :=
  (u8ReadC bs).bind fun p1 =>
  (u8ReadC p1.2).bind fun p2 =>
  (nu64ReadC p2.2).bind fun p3 =>
  (ns64ReadC p3.2).bind fun p4 =>
  let b1 := blobReadC 32 p4.2
  let b2 := blobReadC 32 b1.2
  let b3 := blobReadC 32 b2.2
  (feesDecodeC b3.2).bind fun p8 =>
  (rewardsDecodeC p8.2).bind fun p9 =>
  some ⟨p1.1, p2.1, p3.1, p4.1, b1.1, b2.1, b3.1, p8.1, p9.1⟩

/-- Modelled from the spec: the FarmLayout consumed by Farm.loadFarm is
commented out in both layout.ts versions in src (marked need to be
fixed); the shape below follows that commented candidate, which matches
the FarmState description in section 3 of the spec: init and pause
flags, nonce, amplification pair, ramp and deadline timestamps, nine
32-byte account identifiers, and a flat embedded fee schedule. -/
structure FarmState where
  isInitialized : Nat
  isPaused : Nat
  nonce : Nat
  initialAmpFactor : Nat
  targetAmpFactor : Nat
  startRampTs : Int
  stopRampTs : Int
  futureAdminDeadline : Int
  futureAdminAccount : List Nat
  adminAccount : List Nat
  tokenAccountA : List Nat
  tokenAccountB : List Nat
  tokenPool : List Nat
  mintA : List Nat
  mintB : List Nat
  adminFeeAccountA : List Nat
  adminFeeAccountB : List Nat
  adminTradeFeeNumerator : Nat
  adminTradeFeeDenominator : Nat
  adminWithdrawFeeNumerator : Nat
  adminWithdrawFeeDenominator : Nat
  tradeFeeNumerator : Nat
  tradeFeeDenominator : Nat
  withdrawFeeNumerator : Nat
  withdrawFeeDenominator : Nat
  deriving DecidableEq, Repr

/-- The leading part of the FarmLayout walk: the three u8 flags, the
two nu64 amplification factors, the three ns64 timestamps, and the nine
32-byte identifier blobs, consuming 18 + 288 bytes. -/
structure FarmHead where
  isInitialized : Nat
  isPaused : Nat
  nonce : Nat
  initialAmpFactor : Nat
  targetAmpFactor : Nat
  startRampTs : Int
  stopRampTs : Int
  futureAdminDeadline : Int
  futureAdminAccount : List Nat
  adminAccount : List Nat
  tokenAccountA : List Nat
  tokenAccountB : List Nat
  tokenPool : List Nat
  mintA : List Nat
  mintB : List Nat
  adminFeeAccountA : List Nat
  adminFeeAccountB : List Nat
  deriving DecidableEq, Repr

/-- Decode of the leading FarmLayout fields in declaration order. -/
def farmHeadDecodeC (bs : List Nat) : Option (FarmHead × List Nat) :=
  (u8ReadC bs).bind fun p1 =>
  (u8ReadC p1.2).bind fun p2 =>
  (u8ReadC p2.2).bind fun p3 =>
  (nu64ReadC p3.2).bind fun p4 =>
  (nu64ReadC p4.2).bind fun p5 =>
  (ns64ReadC p5.2).bind fun p6 =>
  (ns64ReadC p6.2).bind fun p7 =>
  (ns64ReadC p7.2).bind fun p8 =>
  let b1 := blobReadC 32 p8.2
  let b2 := blobReadC 32 b1.2
  let b3 := blobReadC 32 b2.2
  let b4 := blobReadC 32 b3.2
  let b5 := blobReadC 32 b4.2
  let b6 := blobReadC 32 b5.2
  let b7 := blobReadC 32 b6.2
  let b8 := blobReadC 32 b7.2
  let b9 := blobReadC 32 b8.2
  some (⟨p1.1, p2.1, p3.1, p4.1, p5.1, p6.1, p7.1, p8.1,
         b1.1, b2.1, b3.1, b4.1, b5.1, b6.1, b7.1, b8.1, b9.1⟩, b9.2)

/-- FarmLayout decode against raw account bytes: the leading fields,
then the eight trailing flat nu64 fee fields, which are read by the
same eight sequential nu64 reads as FeesLayout (same field order and
names); the total span is 395 bytes. -/
def farmDecode (bs : List Nat) : Option FarmState :=
  (farmHeadDecodeC bs).bind fun hd =>
  (feesDecodeC hd.2).bind fun fr =>
  some { isInitialized := hd.1.isInitialized, isPaused := hd.1.isPaused,
         nonce := hd.1.nonce, initialAmpFactor := hd.1.initialAmpFactor,
         targetAmpFactor := hd.1.targetAmpFactor,
         startRampTs := hd.1.startRampTs, stopRampTs := hd.1.stopRampTs,
         futureAdminDeadline := hd.1.futureAdminDeadline,
         futureAdminAccount := hd.1.futureAdminAccount,
         adminAccount := hd.1.adminAccount,
         tokenAccountA := hd.1.tokenAccountA,
         tokenAccountB := hd.1.tokenAccountB,
         tokenPool := hd.1.tokenPool, mintA := hd.1.mintA,
         mintB := hd.1.mintB, adminFeeAccountA := hd.1.adminFeeAccountA,
         adminFeeAccountB := hd.1.adminFeeAccountB,
         adminTradeFeeNumerator := fr.1.adminTradeFeeNumerator,
         adminTradeFeeDenominator := fr.1.adminTradeFeeDenominator,
         adminWithdrawFeeNumerator := fr.1.adminWithdrawFeeNumerator,
         adminWithdrawFeeDenominator := fr.1.adminWithdrawFeeDenominator,
         tradeFeeNumerator := fr.1.tradeFeeNumerator,
         tradeFeeDenominator := fr.1.tradeFeeDenominator,
         withdrawFeeNumerator := fr.1.withdrawFeeNumerator,
         withdrawFeeDenominator := fr.1.withdrawFeeDenominator }

/-- Farm.loadFarm of farm.ts, restricted to its decode-and-validate
kernel: the raw bytes arrive from the external loadAccount collaborator
(which performs the ownership check, out of scope per section 1 of the
spec); FarmLayout.decode runs, and a decoded state whose isInitialized
flag is zero (falsy) is rejected before any field is used.  A decode
failure surfaces as the structural error, the cleared flag as the
uninitialized error. -/
def loadFarm (bytes : List Nat) : Except CodecError FarmState :=
  match farmDecode bytes with
  | none => .error .structural
  | some farmData =>
      if farmData.isInitialized = 0 then .error .uninitialized
      else .ok farmData

/-- Account identifiers are opaque to the instruction encoders; only
their positions and flags matter. -/
abbrev PubKey := Nat

/-- The well-known clock sysvar identifier, opaque here. -/
def SYSVAR_CLOCK_PUBKEY : PubKey := 0

/-- One entry of the ordered account-reference list of an instruction. -/
structure AccountMeta where
  pubkey : PubKey
  isSigner : Bool
  isWritable : Bool
  deriving DecidableEq, Repr

/-- The value an instruction encoder returns: ordered account
references, target program, payload bytes. -/
structure TransactionInstruction where
  keys : List AccountMeta
  programId : PubKey
  data : List Nat
  deriving DecidableEq, Repr

/-- Tags of the AdminInstruction enum in instructions/admin.ts:
Initialize 99, RampA 100, StopRamp 101, Pause 102, Unpause 103,
SetFeeAccount 104, ApplyNewAdmin 105, CommitNewAdmin 106,
SetNewFees 107, SetNewRewards 108. -/
def adminInitTag : Nat := 99
def rampATag : Nat := 100
def stopRampTag : Nat := 101
def pauseTag : Nat := 102
def unpauseTag : Nat := 103
def setFeeAccountTag : Nat := 104
def applyNewAdminTag : Nat := 105
def commitNewAdminTag : Nat := 106
/-- Tags of the swap-program instruction family in instructions.ts:
InitializeSwap 0, Swap 1, Deposit 2, Withdraw 3, WithdrawOne 4. -/
def swapTag : Nat := 1
def withdrawOneTag : Nat := 4

/-- Tags of the farm instruction family in instructions.ts:
FarmWithdraw 32, EmergencyWithdraw 33. -/
def farmWithdrawTag : Nat := 32
def farmEmergencyWithdrawTag : Nat := 33

/-- createAdminInitializeInstruction of instructions/admin.ts (lines 26
to 62).  The source object evaluates the three toBuffer calls first;
the layout walk then writes the u8 tag, feeds the ampFactor Buffer to a
nu64 field (silent zero bytes), and feeds the fees and rewards Buffers
to nested struct layouts whose property lookups all miss (zero bytes,
full span reported written). -/
def createAdminInitializeInstruction (config adminKey deltafiMint : PubKey)
    (ampFactor : Int) (fees : Fees) (rewards : Rewards) (programId : PubKey) :
    Except CodecError TransactionInstruction := do
  let ampBuf ← NumberU64.toBuffer ampFactor
  let feesBuf ← fees.toBuffer
  let rewardsBuf ← rewards.toBuffer
  let tagBytes ← u8Write adminInitTag
  let ampBytes ← nu64WriteOfSrcBytes ampBuf
  .ok { keys := [⟨config, true, false⟩, ⟨adminKey, true, false⟩,
                 ⟨deltafiMint, false, false⟩],
        programId := programId,
        data := tagBytes ++ ampBytes ++ structSkipWrite 64 feesBuf ++
                structSkipWrite 24 rewardsBuf }

/-- createRampAInstruction of instructions/admin.ts (lines 64 to 99):
u8 tag then two nu64 fields fed with the toBuffer Buffers of targetAmp
and stopRampTimestamp; the final slice to the encoded length keeps the
whole 17-byte span. -/
def createRampAInstruction (tokenSwap authority adminAccount : PubKey)
    (targetAmp stopRampTimestamp : Int) (programId : PubKey) :
    Except CodecError TransactionInstruction := do
  let targetBuf ← NumberU64.toBuffer targetAmp
  let stopBuf ← NumberU64.toBuffer stopRampTimestamp
  let tagBytes ← u8Write rampATag
  let targetBytes ← nu64WriteOfSrcBytes targetBuf
  let stopBytes ← nu64WriteOfSrcBytes stopBuf
  .ok { keys := [⟨tokenSwap, true, false⟩, ⟨authority, false, false⟩,
                 ⟨adminAccount, true, false⟩,
                 ⟨SYSVAR_CLOCK_PUBKEY, false, false⟩],
        programId := programId,
        data := tagBytes ++ targetBytes ++ stopBytes }

/-- createStopRampInstruction of instructions/admin.ts (lines 101 to
128): single u8 tag, sliced to the one encoded byte. -/
def createStopRampInstruction (tokenSwapAccount authority adminAccount
    programId : PubKey) : Except CodecError TransactionInstruction := do
  let tagBytes ← u8Write stopRampTag
  .ok { keys := [⟨tokenSwapAccount, true, false⟩, ⟨authority, false, false⟩,
                 ⟨adminAccount, true, false⟩,
                 ⟨SYSVAR_CLOCK_PUBKEY, false, false⟩],
        programId := programId,
        data := tagBytes }

/-- createPauseInstruction of instructions/admin.ts (lines 130 to 156). -/
def createPauseInstruction (tokenSwapAccount authority adminAccount
    programId : PubKey) : Except CodecError TransactionInstruction := do
  let tagBytes ← u8Write pauseTag
  .ok { keys := [⟨tokenSwapAccount, true, false⟩, ⟨authority, false, false⟩,
                 ⟨adminAccount, true, false⟩],
        programId := programId,
        data := tagBytes }

/-- createUnpauseInstruction of instructions/admin.ts (lines 158 to
184). -/
def createUnpauseInstruction (tokenSwapAccount authority adminAccount
    programId : PubKey) : Except CodecError TransactionInstruction := do
  let tagBytes ← u8Write unpauseTag
  .ok { keys := [⟨tokenSwapAccount, true, false⟩, ⟨authority, false, false⟩,
                 ⟨adminAccount, true, false⟩],
        programId := programId,
        data := tagBytes }

/-- createSetFeeAccountInstruction of instructions/admin.ts (lines 186
to 214). -/
def createSetFeeAccountInstruction (tokenSwapAccount authority adminAccount
    newFeeAccount programId : PubKey) :
    Except CodecError TransactionInstruction := do
  let tagBytes ← u8Write setFeeAccountTag
  .ok { keys := [⟨tokenSwapAccount, true, false⟩, ⟨authority, false, false⟩,
                 ⟨adminAccount, true, false⟩, ⟨newFeeAccount, false, false⟩],
        programId := programId,
        data := tagBytes }

/-- createApplyNewAdminInstruction of instructions/admin.ts (lines 216
to 243). -/
def createApplyNewAdminInstruction (tokenSwapAccount authority adminAccount
    programId : PubKey) : Except CodecError TransactionInstruction := do
  let tagBytes ← u8Write applyNewAdminTag
  .ok { keys := [⟨tokenSwapAccount, true, false⟩, ⟨authority, false, false⟩,
                 ⟨adminAccount, true, false⟩,
                 ⟨SYSVAR_CLOCK_PUBKEY, false, false⟩],
        programId := programId,
        data := tagBytes }

/-- createCommitNewAdminInstruction of instructions/admin.ts (lines 245
to 274). -/
def createCommitNewAdminInstruction (tokenSwapAccount authority adminAccount
    newAdminAccount programId : PubKey) :
    Except CodecError TransactionInstruction := do
  let tagBytes ← u8Write commitNewAdminTag
  .ok { keys := [⟨tokenSwapAccount, true, false⟩, ⟨authority, false, false⟩,
                 ⟨adminAccount, true, false⟩, ⟨newAdminAccount, false, false⟩,
                 ⟨SYSVAR_CLOCK_PUBKEY, false, false⟩],
        programId := programId,
        data := tagBytes }

/-- createSetNewFeesInstruction of instructions/admin.ts (lines 276 to
307).  The source encodes instruction: AdminInstruction.CommitNewAdmin
(value 106) instead of SetNewFees; the newFees Buffer fed to the nested
FeesLayout is skipped, leaving 64 zero bytes. -/
def createSetNewFeesInstruction (tokenSwapAccount authority adminAccount :
    PubKey) (newFees : Fees) (programId : PubKey) :
    Except CodecError TransactionInstruction := do
  let feesBuf ← newFees.toBuffer
  let tagBytes ← u8Write commitNewAdminTag
  .ok { keys := [⟨tokenSwapAccount, true, false⟩, ⟨authority, false, false⟩,
                 ⟨adminAccount, true, false⟩],
        programId := programId,
        data := tagBytes ++ structSkipWrite 64 feesBuf }

/-- createSetNewRewardsInstruction of instructions/admin.ts (lines 309
to 340).  The source again encodes instruction:
AdminInstruction.CommitNewAdmin (value 106) instead of SetNewRewards;
the newRewards Buffer fed to the nested RewardsLayout is skipped,
leaving 24 zero bytes. -/
def createSetNewRewardsInstruction (tokenSwapAccount authority adminAccount :
    PubKey) (newRewards : Rewards) (programId : PubKey) :
    Except CodecError TransactionInstruction := do
  let rewardsBuf ← newRewards.toBuffer
  let tagBytes ← u8Write commitNewAdminTag
  .ok { keys := [⟨tokenSwapAccount, true, false⟩, ⟨authority, false, false⟩,
                 ⟨adminAccount, true, false⟩],
        programId := programId,
        data := tagBytes ++ structSkipWrite 24 rewardsBuf }

/-- swapInstruction of instructions.ts (lines 97 to 142): u8 tag 1 then
two Uint64Layout fields holding the 8-byte little-endian buffers of
amountIn and minimumAmountOut; nine account references, none of them a
signer, the clock sysvar last. -/
def swapInstruction (tokenSwap authority userSource poolSource
    poolDestination userDestination adminDestination swapProgramId
    tokenProgramId : PubKey) (amountIn minimumAmountOut : Int) :
    Except CodecError TransactionInstruction := do
  let amountInBuf ← NumberU64.toBuffer amountIn
  let minimumOutBuf ← NumberU64.toBuffer minimumAmountOut
  let tagBytes ← u8Write swapTag
  let amountInBytes ← uint64LayoutWrite amountInBuf
  let minimumOutBytes ← uint64LayoutWrite minimumOutBuf
  .ok { keys := [⟨tokenSwap, false, false⟩, ⟨authority, false, false⟩,
                 ⟨userSource, false, true⟩, ⟨poolSource, false, true⟩,
                 ⟨poolDestination, false, true⟩, ⟨userDestination, false, true⟩,
                 ⟨adminDestination, false, true⟩,
                 ⟨tokenProgramId, false, false⟩,
                 ⟨SYSVAR_CLOCK_PUBKEY, false, false⟩],
        programId := swapProgramId,
        data := tagBytes ++ amountInBytes ++ minimumOutBytes }

/-- createWithdrawOneInstruction of instructions/admin.ts (lines 595 to
643): u8 tag 4 then two declared nu64 fields, poolTokenAmount and
minimumTokenAmount.  The source feeds the poolTokenAmount Buffer to its
nu64 field (silent zero bytes) and supplies the minimum amount under
the undeclared key minimumTokenA, so the declared minimumTokenAmount
field is skipped and its zero bytes remain. -/
def createWithdrawOneInstruction (tokenSwap authority poolMint sourcePool
    base quote userDestination adminDestination tokenProgramId : PubKey)
    (poolTokenAmount minimumTokenAmount : Int) (programId : PubKey) :
    Except CodecError TransactionInstruction := do
  let poolBuf ← NumberU64.toBuffer poolTokenAmount
  let _minBuf ← NumberU64.toBuffer minimumTokenAmount
  let tagBytes ← u8Write withdrawOneTag
  let poolBytes ← nu64WriteOfSrcBytes poolBuf
  .ok { keys := [⟨tokenSwap, false, false⟩, ⟨authority, false, false⟩,
                 ⟨poolMint, false, true⟩, ⟨sourcePool, false, true⟩,
                 ⟨base, false, true⟩, ⟨quote, false, true⟩,
                 ⟨userDestination, false, true⟩,
                 ⟨adminDestination, false, true⟩,
                 ⟨tokenProgramId, false, false⟩,
                 ⟨SYSVAR_CLOCK_PUBKEY, false, false⟩],
        programId := programId,
        data := tagBytes ++ poolBytes ++ List.replicate 8 0 }

/-- farmWithdrawInstruction of instructions.ts (lines 408 to 454): u8
tag 32 then the Uint64Layout field tokenAmountPool.  Unlike the other
encoders, the source passes the raw number tokenAmountPool (not a
NumberU64 buffer) to the blob-typed Uint64Layout, whose encode throws a
TypeError for every non-Buffer source, so the encoder always fails with
the structural kind, never reaching the width check. -/
def farmWithdrawInstruction (farmBaseAccount farmAccount authority
    adminFeeAccountDeltafi userPoolAccount userFarming tokenMintPool
    deltafiTokenMint deltafiTokenAccount farmProgramId tokenProgramId :
    PubKey) (tokenAmountPool : Int) :
    Except CodecError TransactionInstruction := do
  let tagBytes ← u8Write farmWithdrawTag
  let amountBytes ← uint64LayoutWriteOfNumber tokenAmountPool
  .ok { keys := [⟨farmBaseAccount, false, true⟩, ⟨farmAccount, false, true⟩,
                 ⟨authority, false, false⟩,
                 ⟨adminFeeAccountDeltafi, false, false⟩,
                 ⟨userPoolAccount, false, false⟩, ⟨userFarming, false, false⟩,
                 ⟨tokenMintPool, false, false⟩, ⟨deltafiTokenMint, false, true⟩,
                 ⟨deltafiTokenAccount, false, true⟩,
                 ⟨tokenProgramId, false, false⟩,
                 ⟨SYSVAR_CLOCK_PUBKEY, false, false⟩],
        programId := farmProgramId,
        data := tagBytes ++ amountBytes }

/-- farmEmergencyWithdrawInstruction of instructions.ts (lines 456 to
497): single u8 tag 33. -/
def farmEmergencyWithdrawInstruction (farmBaseAccount farmAccount authority
    adminFeeAccountDeltafi userPoolAccount userFarming tokenMintPool
    deltafiTokenMint deltafiTokenAccount farmProgramId tokenProgramId :
    PubKey) : Except CodecError TransactionInstruction := do
  let tagBytes ← u8Write farmEmergencyWithdrawTag
  .ok { keys := [⟨farmBaseAccount, false, true⟩, ⟨farmAccount, false, true⟩,
                 ⟨authority, false, false⟩,
                 ⟨adminFeeAccountDeltafi, false, false⟩,
                 ⟨userPoolAccount, false, false⟩, ⟨userFarming, false, false⟩,
                 ⟨tokenMintPool, false, false⟩, ⟨deltafiTokenMint, false, true⟩,
                 ⟨deltafiTokenAccount, false, true⟩,
                 ⟨tokenProgramId, false, false⟩,
                 ⟨SYSVAR_CLOCK_PUBKEY, false, false⟩],
        programId := farmProgramId,
        data := tagBytes }

/-- The farm state decoded from an all-zero account buffer: every
numeric field zero, every identifier blob 32 zero bytes; its
isInitialized flag is cleared. -/
def zeroFarmState : FarmState :=
  ⟨0, 0, 0, 0, 0, 0, 0, 0,
   List.replicate 32 0, List.replicate 32 0, List.replicate 32 0,
   List.replicate 32 0, List.replicate 32 0, List.replicate 32 0,
   List.replicate 32 0, List.replicate 32 0, List.replicate 32 0,
   0, 0, 0, 0, 0, 0, 0, 0⟩

theorem u8ReadC_some_length {bs : List Nat} {p : Nat × List Nat}
    (h : u8ReadC bs = some p) : bs.length = 1 + p.2.length := by
  unfold u8ReadC at h
  split at h
  · simp at h
  · simp only [Option.some.injEq] at h
    subst h
    simp
    omega

theorem nu64ReadC_some_length {bs : List Nat} {p : Nat × List Nat}
    (h : nu64ReadC bs = some p) : bs.length = 8 + p.2.length := by
  unfold nu64ReadC at h
  split at h
  · simp only [Option.some.injEq] at h
    subst h
    simp
    omega
  · simp at h

theorem ns64ReadC_some_length {bs : List Nat} {p : Int × List Nat}
    (h : ns64ReadC bs = some p) : bs.length = 8 + p.2.length := by
  unfold ns64ReadC at h
  split at h
  · simp only [Option.some.injEq] at h
    subst h
    simp
    omega
  · simp at h

theorem feesDecodeC_some_length {bs : List Nat} {p : Fees × List Nat}
    (h : feesDecodeC bs = some p) : bs.length = 64 + p.2.length := by
  unfold feesDecodeC at h
  simp only [Option.bind_eq_some] at h
  obtain ⟨p1, h1, p2, h2, p3, h3, p4, h4, p5, h5, p6, h6, p7, h7, p8, h8,
          hfin⟩ := h
  simp only [Option.some.injEq] at hfin
  have l1 := nu64ReadC_some_length h1
  have l2 := nu64ReadC_some_length h2
  have l3 := nu64ReadC_some_length h3
  have l4 := nu64ReadC_some_length h4
  have l5 := nu64ReadC_some_length h5
  have l6 := nu64ReadC_some_length h6
  have l7 := nu64ReadC_some_length h7
  have l8 := nu64ReadC_some_length h8
  have hr : p8.2.length = p.2.length := by rw [← hfin]
  omega

theorem rewardsDecodeC_some_length {bs : List Nat} {p : Rewards × List Nat}
    (h : rewardsDecodeC bs = some p) : bs.length = 24 + p.2.length := by
  unfold rewardsDecodeC at h
  simp only [Option.bind_eq_some] at h
  obtain ⟨p1, h1, p2, h2, p3, h3, hfin⟩ := h
  simp only [Option.some.injEq] at hfin
  have l1 := nu64ReadC_some_length h1
  have l2 := nu64ReadC_some_length h2
  have l3 := nu64ReadC_some_length h3
  have hr : p3.2.length = p.2.length := by rw [← hfin]
  omega

theorem configInfoDecode_some_le {bs : List Nat} {c : ConfigInfo}
    (h : configInfoDecode bs = some c) : 202 ≤ bs.length := by
  unfold configInfoDecode at h
  simp only [blobReadC, Option.bind_eq_some] at h
  obtain ⟨p1, h1, p2, h2, p3, h3, p4, h4, p8, h8, p9, h9, hfin⟩ := h
  have l1 := u8ReadC_some_length h1
  have l2 := u8ReadC_some_length h2
  have l3 := nu64ReadC_some_length h3
  have l4 := ns64ReadC_some_length h4
  have l8 := feesDecodeC_some_length h8
  have l9 := rewardsDecodeC_some_length h9
  have ld : (((p4.2.drop 32).drop 32).drop 32).length = p4.2.length - 96 := by
    simp
  rw [ld] at l8
  omega

theorem exceptBind_ok {α β : Type} {x : Except CodecError α}
    {f : α → Except CodecError β} {b : β} (h : x >>= f = .ok b) :
    ∃ a, x = .ok a ∧ f a = .ok b := by
  cases x with
  | error e => simp [Bind.bind, Except.bind] at h
  | ok a => exact ⟨a, rfl, h⟩

theorem toDouble_small {v : Nat} (h : v < 9007199254740992) :
    toDouble v = v := by
  unfold toDouble
  rw [if_pos h]

theorem nu64Write_small {v : Nat} (h : v < 9007199254740992) :
    nu64Write v = .ok (le64 v) := by
  unfold nu64Write le64
  rw [toDouble_small h, if_pos (by omega)]

theorem nu64ReadC_le64_append {v : Nat} (h : v < 9007199254740992)
    (rest : List Nat) : nu64ReadC (le64 v ++ rest) = some (v, rest) := by
  have hcons : le64 v ++ rest =
      v % 4294967296 % 256 :: v % 4294967296 / 256 % 256 ::
      v % 4294967296 / 65536 % 256 :: v % 4294967296 / 16777216 % 256 ::
      v / 4294967296 % 256 :: v / 4294967296 / 256 % 256 ::
      v / 4294967296 / 65536 % 256 :: v / 4294967296 / 16777216 % 256 ::
      rest := by
    simp [le64, le32]
  rw [hcons]
  unfold nu64ReadC
  simp only [leVal, Option.some.injEq, Prod.mk.injEq, and_true]
  have hv : v % 4294967296 % 256 +
      256 * (v % 4294967296 / 256 % 256 +
        256 * (v % 4294967296 / 65536 % 256 +
          256 * (v % 4294967296 / 16777216 % 256 + 256 * 0))) +
      4294967296 * (v / 4294967296 % 256 +
        256 * (v / 4294967296 / 256 % 256 +
          256 * (v / 4294967296 / 65536 % 256 +
            256 * (v / 4294967296 / 16777216 % 256 + 256 * 0)))) = v := by
    omega
  rw [hv]
  exact toDouble_small h

theorem nu64ReadC_le64_nil {v : Nat} (h : v < 9007199254740992) :
    nu64ReadC (le64 v) = some (v, []) := by
  have := nu64ReadC_le64_append h []
  rwa [List.append_nil] at this

theorem exceptOk_bind {α β : Type} (a : α) (f : α → Except CodecError β) :
    (Except.ok a >>= f) = f a := rfl

theorem exceptError_bind {α β : Type} (e : CodecError)
    (f : α → Except CodecError β) :
    ((Except.error e : Except CodecError α) >>= f) = .error e := rfl

theorem numberU64ToBuffer_overflow {t : Int}
    (hbad : t < 0 ∨ 18446744073709551616 ≤ t) :
    NumberU64.toBuffer t = .error .widthOverflow := by
  unfold NumberU64.toBuffer
  rw [if_neg]
  rcases hbad with hx | hx
  · intro hy; omega
  · intro hy; omega

theorem numberU64ToBuffer_in_range {t : Int}
    (h : 0 ≤ t ∧ t < 18446744073709551616) :
    NumberU64.toBuffer t = .ok (le64 t.toNat) := by
  unfold NumberU64.toBuffer
  rw [if_pos h]

theorem optionSome_bind {α β : Type} (a : α) (f : α → Option β) :
    (Option.some a).bind f = f a := rfl

theorem optionMap_some {α β : Type} (g : α → β) (a : α) :
    (Option.some a).map g = some (g a) := rfl

/-- C2: a swap instruction built with amountIn 100000 and
minimumAmountOut 0 carries the payload consisting of the tag byte 1
followed by the little-endian 64-bit encodings of 100000 and 0, 17
bytes in all, and its account-reference list has exactly nine ordered
entries, none flagged as a signer. -/
theorem c2_swap_instruction_concrete (ts au us ps pd ud ad spid tpid :
    PubKey) :
    (swapInstruction ts au us ps pd ud ad spid tpid 100000 0).map
      (fun i => (i.data, i.data.length, i.keys.length,
                 i.keys.map AccountMeta.isSigner)) =
    .ok (1 :: (le64 100000 ++ le64 0), 17, 9, List.replicate 9 false) := rfl

/-- C3: encoding the fee schedule with admin-trade, admin-withdraw and
withdraw pairs 0 over 1000 and trade pair 1 over 4 yields exactly 64
bytes whose bytes 32 to 39 are the little-endian 64-bit encoding of 1
and whose bytes 40 to 47 are the little-endian 64-bit encoding of 4. -/
theorem c3_fee_schedule_concrete_bytes :
    (Fees.toBuffer ⟨0, 1000, 0, 1000, 1, 4, 0, 1000⟩).map
      (fun bs => (bs.length, (bs.drop 32).take 8, (bs.drop 40).take 8)) =
    .ok (64, le64 1, le64 4) := rfl

/-- C4 counterexample: the claim states that decode after encode is the
identity on every value of the declared field type (unsigned 64-bit).
At the field value 2 to the 53rd power plus 1 the nu64 encode path
rounds the value to the nearest double, so the round trip returns a
different fee schedule. -/
theorem c4_roundtrip_counterexample :
    Fees.toBuffer ⟨9007199254740993, 1000, 0, 1000, 1, 4, 0, 1000⟩ =
      .ok (le64 9007199254740992 ++ le64 1000 ++ le64 0 ++ le64 1000 ++
           le64 1 ++ le64 4 ++ le64 0 ++ le64 1000) ∧
    Fees.fromBuffer
        (le64 9007199254740992 ++ le64 1000 ++ le64 0 ++ le64 1000 ++
         le64 1 ++ le64 4 ++ le64 0 ++ le64 1000) =
      some ⟨9007199254740992, 1000, 0, 1000, 1, 4, 0, 1000⟩ ∧
    (⟨9007199254740992, 1000, 0, 1000, 1, 4, 0, 1000⟩ : Fees) ≠
      ⟨9007199254740993, 1000, 0, 1000, 1, 4, 0, 1000⟩ :=
  ⟨rfl, rfl, by decide⟩

/-- C4 amended: for every FeeSchedule and RewardSchedule value whose
fields are all below 2 to the 53rd power (the exactly representable
range of the double-backed nu64 layout), decoding the encoded bytes
returns the value field for field; the decoded fields are the plain
numbers of the layout rather than the wrapper type. -/
theorem c4_roundtrip_below_2_pow_53 :
    (∀ f : Fees,
      f.adminTradeFeeNumerator < 9007199254740992 →
      f.adminTradeFeeDenominator < 9007199254740992 →
      f.adminWithdrawFeeNumerator < 9007199254740992 →
      f.adminWithdrawFeeDenominator < 9007199254740992 →
      f.tradeFeeNumerator < 9007199254740992 →
      f.tradeFeeDenominator < 9007199254740992 →
      f.withdrawFeeNumerator < 9007199254740992 →
      f.withdrawFeeDenominator < 9007199254740992 →
      ∃ bytes, Fees.toBuffer f = .ok bytes ∧
               Fees.fromBuffer bytes = some f) ∧
    (∀ r : Rewards,
      r.tradeRewardNumerator < 9007199254740992 →
      r.tradeRewardDenominator < 9007199254740992 →
      r.tradeRewardCap < 9007199254740992 →
      ∃ bytes, Rewards.toBuffer r = .ok bytes ∧
               Rewards.fromBuffer bytes = some r) := by
  constructor
  · intro f h1 h2 h3 h4 h5 h6 h7 h8
    refine ⟨le64 f.adminTradeFeeNumerator ++ le64 f.adminTradeFeeDenominator ++
            le64 f.adminWithdrawFeeNumerator ++
            le64 f.adminWithdrawFeeDenominator ++ le64 f.tradeFeeNumerator ++
            le64 f.tradeFeeDenominator ++ le64 f.withdrawFeeNumerator ++
            le64 f.withdrawFeeDenominator, ?_, ?_⟩
    · simp only [Fees.toBuffer, nu64Write_small h1, nu64Write_small h2,
        nu64Write_small h3, nu64Write_small h4, nu64Write_small h5,
        nu64Write_small h6, nu64Write_small h7, nu64Write_small h8,
        exceptOk_bind]
    · simp only [Fees.fromBuffer, feesDecodeC, List.append_assoc,
        nu64ReadC_le64_append h1, nu64ReadC_le64_append h2,
        nu64ReadC_le64_append h3, nu64ReadC_le64_append h4,
        nu64ReadC_le64_append h5, nu64ReadC_le64_append h6,
        nu64ReadC_le64_append h7, nu64ReadC_le64_nil h8,
        optionSome_bind, optionMap_some]
  · intro r h1 h2 h3
    refine ⟨le64 r.tradeRewardNumerator ++ le64 r.tradeRewardDenominator ++
            le64 r.tradeRewardCap, ?_, ?_⟩
    · simp only [Rewards.toBuffer, nu64Write_small h1, nu64Write_small h2,
        nu64Write_small h3, exceptOk_bind]
    · simp only [Rewards.fromBuffer, rewardsDecodeC, List.append_assoc,
        nu64ReadC_le64_append h1, nu64ReadC_le64_append h2,
        nu64ReadC_le64_nil h3, optionSome_bind, optionMap_some]

theorem c4_roundtrip_below_2_pow_53_witness :
    (∃ bytes, Fees.toBuffer ⟨0, 1000, 0, 1000, 1, 4, 0, 1000⟩ = .ok bytes ∧
      Fees.fromBuffer bytes = some ⟨0, 1000, 0, 1000, 1, 4, 0, 1000⟩) ∧
    (∃ bytes, Rewards.toBuffer ⟨1, 1000, 100⟩ = .ok bytes ∧
      Rewards.fromBuffer bytes = some ⟨1, 1000, 100⟩) :=
  ⟨c4_roundtrip_below_2_pow_53.1 ⟨0, 1000, 0, 1000, 1, 4, 0, 1000⟩
      (by decide) (by decide) (by decide) (by decide) (by decide) (by decide)
      (by decide) (by decide),
   c4_roundtrip_below_2_pow_53.2 ⟨1, 1000, 100⟩
      (by decide) (by decide) (by decide)⟩

/-- C5 counterexample: the claim quantifies over every fixed-span
layout, but the FixedU256 composite layout (span 64, two 32-byte
blobs) decodes a 63-byte buffer without any error, returning a struct
whose final blob is truncated to 31 bytes, because the blob layout
slices with clamping. -/
theorem c5_blob_layout_accepts_short_buffer :
    fixedU256Decode (List.replicate 63 0) =
      some ⟨List.replicate 32 0, List.replicate 31 0⟩ := by
  decide

/-- C5 amended: for the layouts whose trailing fields are bounds-checked
integer reads, a source buffer strictly shorter than the span makes
decode fail and no struct is returned: every buffer shorter than the
202-byte ConfigInfo span is rejected (in particular the 1-byte-short
one), and every buffer shorter than the 64-byte FeesLayout span is
rejected by Fees.fromBuffer; layouts ending in opaque blobs (FixedU256)
instead return a struct with a truncated final blob. -/
theorem c5_short_buffer_rejected :
    (∀ bs : List Nat, bs.length < 202 → configInfoDecode bs = none) ∧
    (∀ bs : List Nat, bs.length < 64 → Fees.fromBuffer bs = none) := by
  constructor
  · intro bs hlen
    cases hc : configInfoDecode bs with
    | none => rfl
    | some c =>
        have := configInfoDecode_some_le hc
        omega
  · intro bs hlen
    cases hc : Fees.fromBuffer bs with
    | none => rfl
    | some f =>
        unfold Fees.fromBuffer at hc
        cases hd : feesDecodeC bs with
        | none => rw [hd] at hc; simp at hc
        | some p =>
            have := feesDecodeC_some_length hd
            omega

set_option maxRecDepth 16384 in
theorem c5_short_buffer_rejected_witness :
    configInfoDecode (List.replicate 201 0) = none ∧
    Fees.fromBuffer (List.replicate 63 7) = none :=
  ⟨c5_short_buffer_rejected.1 _ (by simp),
   c5_short_buffer_rejected.2 _ (by simp)⟩

/-- C6 counterexample: the claim quantifies over every instruction
encoder and asserts the width-overflow error kind, but
farmWithdrawInstruction passes its raw tokenAmountPool number to the
blob-typed Uint64Layout, whose encode rejects every non-Buffer source
with a TypeError: at the out-of-width value 2 to the 64th power the
encoder fails with the structural kind, not the claimed width-overflow
kind. -/
theorem c6_farm_withdraw_fails_structurally :
    farmWithdrawInstruction 0 1 2 3 4 5 6 7 8 9 10 18446744073709551616 =
      .error .structural ∧
    (Except.error CodecError.structural :
        Except CodecError TransactionInstruction) ≠
      .error .widthOverflow :=
  ⟨rfl, by simp⟩

/-- C6 amended: every encoder that routes a numeric argument through
the NumberU64 byte conversion fails at encode time with the
width-overflow error when that argument is negative or at least 2 to
the 64th power, never truncating or wrapping: shown for both arguments
of the ramp-amplification, swap and withdraw-single-asset encoders and
for the admin-initialize amplification factor.  The farm withdraw
encoder is the exception: it hands its raw number to the 8-byte blob
layout, so it also fails fast at encode time for every value, but with
the structural kind instead of width-overflow. -/
theorem c6_overflow_fails_with_width_kind :
    (∀ targetAmp stopRampTimestamp : Int,
      ((targetAmp < 0 ∨ 18446744073709551616 ≤ targetAmp) ∨
       (stopRampTimestamp < 0 ∨ 18446744073709551616 ≤ stopRampTimestamp)) →
      ∀ a b c p : PubKey,
        createRampAInstruction a b c targetAmp stopRampTimestamp p =
          .error .widthOverflow) ∧
    (∀ amountIn minimumAmountOut : Int,
      ((amountIn < 0 ∨ 18446744073709551616 ≤ amountIn) ∨
       (minimumAmountOut < 0 ∨ 18446744073709551616 ≤ minimumAmountOut)) →
      ∀ k1 k2 k3 k4 k5 k6 k7 k8 k9 : PubKey,
        swapInstruction k1 k2 k3 k4 k5 k6 k7 k8 k9 amountIn
          minimumAmountOut = .error .widthOverflow) ∧
    (∀ poolTokenAmount minimumTokenAmount : Int,
      ((poolTokenAmount < 0 ∨ 18446744073709551616 ≤ poolTokenAmount) ∨
       (minimumTokenAmount < 0 ∨
        18446744073709551616 ≤ minimumTokenAmount)) →
      ∀ k1 k2 k3 k4 k5 k6 k7 k8 k9 p : PubKey,
        createWithdrawOneInstruction k1 k2 k3 k4 k5 k6 k7 k8 k9
          poolTokenAmount minimumTokenAmount p = .error .widthOverflow) ∧
    (∀ ampFactor : Int,
      (ampFactor < 0 ∨ 18446744073709551616 ≤ ampFactor) →
      ∀ (k1 k2 k3 : PubKey) (f : Fees) (r : Rewards) (p : PubKey),
        createAdminInitializeInstruction k1 k2 k3 ampFactor f r p =
          .error .widthOverflow) ∧
    (∀ tokenAmountPool : Int,
      ∀ k1 k2 k3 k4 k5 k6 k7 k8 k9 k10 k11 : PubKey,
        farmWithdrawInstruction k1 k2 k3 k4 k5 k6 k7 k8 k9 k10 k11
          tokenAmountPool = .error .structural) := by
  refine ⟨?_, ?_, ?_, ?_, ?_⟩
  · intro t s hbad a b c p
    unfold createRampAInstruction
    by_cases ht : 0 ≤ t ∧ t < 18446744073709551616
    · have hs : s < 0 ∨ 18446744073709551616 ≤ s := by omega
      simp only [numberU64ToBuffer_in_range ht, numberU64ToBuffer_overflow hs,
                 exceptOk_bind, exceptError_bind]
    · have htb : t < 0 ∨ 18446744073709551616 ≤ t := by omega
      simp only [numberU64ToBuffer_overflow htb, exceptError_bind]
  · intro aIn mOut hbad k1 k2 k3 k4 k5 k6 k7 k8 k9
    unfold swapInstruction
    by_cases ha : 0 ≤ aIn ∧ aIn < 18446744073709551616
    · have hm : mOut < 0 ∨ 18446744073709551616 ≤ mOut := by omega
      simp only [numberU64ToBuffer_in_range ha, numberU64ToBuffer_overflow hm,
                 exceptOk_bind, exceptError_bind]
    · have hab : aIn < 0 ∨ 18446744073709551616 ≤ aIn := by omega
      simp only [numberU64ToBuffer_overflow hab, exceptError_bind]
  · intro pt mt hbad k1 k2 k3 k4 k5 k6 k7 k8 k9 p
    unfold createWithdrawOneInstruction
    by_cases hp : 0 ≤ pt ∧ pt < 18446744073709551616
    · have hm : mt < 0 ∨ 18446744073709551616 ≤ mt := by omega
      simp only [numberU64ToBuffer_in_range hp, numberU64ToBuffer_overflow hm,
                 exceptOk_bind, exceptError_bind]
    · have hpb : pt < 0 ∨ 18446744073709551616 ≤ pt := by omega
      simp only [numberU64ToBuffer_overflow hpb, exceptError_bind]
  · intro amp hbad k1 k2 k3 f r p
    unfold createAdminInitializeInstruction
    simp only [numberU64ToBuffer_overflow hbad, exceptError_bind]
  · intro v k1 k2 k3 k4 k5 k6 k7 k8 k9 k10 k11
    rfl

theorem c6_overflow_fails_with_width_kind_witness :
    createRampAInstruction 0 1 2 5 (-3) 9 = .error .widthOverflow ∧
    swapInstruction 0 1 2 3 4 5 6 7 8 7 18446744073709551616 =
      .error .widthOverflow ∧
    createWithdrawOneInstruction 0 1 2 3 4 5 6 7 8 7 (-9) 11 =
      .error .widthOverflow ∧
    createAdminInitializeInstruction 0 1 2 (-1) ⟨0, 1000, 0, 1000, 1, 4, 0,
      1000⟩ ⟨1, 1000, 100⟩ 9 = .error .widthOverflow ∧
    farmWithdrawInstruction 0 1 2 3 4 5 6 7 8 9 10 7 = .error .structural :=
  ⟨c6_overflow_fails_with_width_kind.1 5 (-3)
     (Or.inr (Or.inl (by decide))) 0 1 2 9,
   c6_overflow_fails_with_width_kind.2.1 7 18446744073709551616
     (Or.inr (Or.inr (by decide))) 0 1 2 3 4 5 6 7 8,
   c6_overflow_fails_with_width_kind.2.2.1 7 (-9)
     (Or.inr (Or.inl (by decide))) 0 1 2 3 4 5 6 7 8 11,
   c6_overflow_fails_with_width_kind.2.2.2.1 (-1) (Or.inl (by decide))
     0 1 2 ⟨0, 1000, 0, 1000, 1, 4, 0, 1000⟩ ⟨1, 1000, 100⟩ 9,
   c6_overflow_fails_with_width_kind.2.2.2.2 7 0 1 2 3 4 5 6 7 8 9 10⟩

/-- C7: raw account bytes that decode under the farm state layout but
whose decoded isInitialized flag is zero are always rejected by
Farm.loadFarm with the uninitialized error, and no struct is
returned. -/
theorem c7_uninitialized_gate (bs : List Nat) (fd : FarmState)
    (hdec : farmDecode bs = some fd) (hflag : fd.isInitialized = 0) :
    loadFarm bs = .error .uninitialized := by
  unfold loadFarm
  rw [hdec]
  simp [hflag]

set_option maxRecDepth 16384 in
theorem c7_uninitialized_gate_witness :
    farmDecode (List.replicate 395 0) = some zeroFarmState ∧
    loadFarm (List.replicate 395 0) = .error .uninitialized :=
  ⟨by decide,
   c7_uninitialized_gate _ zeroFarmState (by decide) (by decide)⟩

/-- C8: every flag-only operation produces a payload of exactly one
byte, the fixed tag of the operation, with no argument bytes: stop-ramp
101, pause 102, unpause 103, set-fee-account 104, apply-pending-admin
105, commit-pending-admin 106, farm emergency-withdraw 33. -/
theorem c8_flag_only_payloads :
    (∀ a b c p : PubKey, (createStopRampInstruction a b c p).map
        TransactionInstruction.data = .ok [101]) ∧
    (∀ a b c p : PubKey, (createPauseInstruction a b c p).map
        TransactionInstruction.data = .ok [102]) ∧
    (∀ a b c p : PubKey, (createUnpauseInstruction a b c p).map
        TransactionInstruction.data = .ok [103]) ∧
    (∀ a b c d p : PubKey, (createSetFeeAccountInstruction a b c d p).map
        TransactionInstruction.data = .ok [104]) ∧
    (∀ a b c p : PubKey, (createApplyNewAdminInstruction a b c p).map
        TransactionInstruction.data = .ok [105]) ∧
    (∀ a b c d p : PubKey, (createCommitNewAdminInstruction a b c d p).map
        TransactionInstruction.data = .ok [106]) ∧
    (∀ a b c d e f g h i j k : PubKey,
      (farmEmergencyWithdrawInstruction a b c d e f g h i j k).map
        TransactionInstruction.data = .ok [33]) :=
  ⟨fun _ _ _ _ => rfl, fun _ _ _ _ => rfl, fun _ _ _ _ => rfl,
   fun _ _ _ _ _ => rfl, fun _ _ _ _ => rfl, fun _ _ _ _ _ => rfl,
   fun _ _ _ _ _ _ _ _ _ _ _ => rfl⟩

/-- C9: the claim states the withdraw-single-asset payload is the tag 4
followed by the little-endian encodings of poolTokenAmount and
minimumTokenAmount.  The code feeds the poolTokenAmount buffer into a
double-typed nu64 field (silent zero bytes) and supplies the minimum
under an undeclared property name, so at poolTokenAmount 7 and
minimumTokenAmount 9 the emitted payload is the tag followed by sixteen
zero bytes, not the claimed encoding. -/
theorem c9_withdraw_one_payload_zeroed :
    (createWithdrawOneInstruction 0 1 2 3 4 5 6 7 8 7 9 11).map
        TransactionInstruction.data = .ok (4 :: List.replicate 16 0) ∧
    (4 :: List.replicate 16 0) ≠ withdrawOneTag :: (le64 7 ++ le64 9) :=
  ⟨rfl, by decide⟩

/-- C10: every admin-family instruction encoder marks exactly two
account references as signers, the first entry (the config or
token-swap account) and the admin account entry, with every other entry
a non-signer; stated as the exact signer-flag sequence of each of the
ten encoders. -/
theorem c10_admin_signer_flags :
    (∀ (k1 k2 k3 : PubKey) (amp : Int) (f : Fees) (r : Rewards)
        (p : PubKey) (i : TransactionInstruction),
      createAdminInitializeInstruction k1 k2 k3 amp f r p = .ok i →
      i.keys.map AccountMeta.isSigner = [true, true, false]) ∧
    (∀ (k1 k2 k3 : PubKey) (t s : Int) (p : PubKey)
        (i : TransactionInstruction),
      createRampAInstruction k1 k2 k3 t s p = .ok i →
      i.keys.map AccountMeta.isSigner = [true, false, true, false]) ∧
    (∀ k1 k2 k3 p : PubKey, (createStopRampInstruction k1 k2 k3 p).map
        (fun i => i.keys.map AccountMeta.isSigner) =
        .ok [true, false, true, false]) ∧
    (∀ k1 k2 k3 p : PubKey, (createPauseInstruction k1 k2 k3 p).map
        (fun i => i.keys.map AccountMeta.isSigner) =
        .ok [true, false, true]) ∧
    (∀ k1 k2 k3 p : PubKey, (createUnpauseInstruction k1 k2 k3 p).map
        (fun i => i.keys.map AccountMeta.isSigner) =
        .ok [true, false, true]) ∧
    (∀ k1 k2 k3 k4 p : PubKey,
      (createSetFeeAccountInstruction k1 k2 k3 k4 p).map
        (fun i => i.keys.map AccountMeta.isSigner) =
        .ok [true, false, true, false]) ∧
    (∀ k1 k2 k3 p : PubKey, (createApplyNewAdminInstruction k1 k2 k3 p).map
        (fun i => i.keys.map AccountMeta.isSigner) =
        .ok [true, false, true, false]) ∧
    (∀ k1 k2 k3 k4 p : PubKey,
      (createCommitNewAdminInstruction k1 k2 k3 k4 p).map
        (fun i => i.keys.map AccountMeta.isSigner) =
        .ok [true, false, true, false, false]) ∧
    (∀ (k1 k2 k3 : PubKey) (f : Fees) (p : PubKey)
        (i : TransactionInstruction),
      createSetNewFeesInstruction k1 k2 k3 f p = .ok i →
      i.keys.map AccountMeta.isSigner = [true, false, true]) ∧
    (∀ (k1 k2 k3 : PubKey) (r : Rewards) (p : PubKey)
        (i : TransactionInstruction),
      createSetNewRewardsInstruction k1 k2 k3 r p = .ok i →
      i.keys.map AccountMeta.isSigner = [true, false, true]) := by
  refine ⟨?_, ?_, fun _ _ _ _ => rfl, fun _ _ _ _ => rfl,
          fun _ _ _ _ => rfl, fun _ _ _ _ _ => rfl, fun _ _ _ _ => rfl,
          fun _ _ _ _ _ => rfl, ?_, ?_⟩
  · intro k1 k2 k3 amp f r p i h
    unfold createAdminInitializeInstruction at h
    obtain ⟨a1, h1, h⟩ := exceptBind_ok h
    obtain ⟨a2, h2, h⟩ := exceptBind_ok h
    obtain ⟨a3, h3, h⟩ := exceptBind_ok h
    obtain ⟨a4, h4, h⟩ := exceptBind_ok h
    obtain ⟨a5, h5, h⟩ := exceptBind_ok h
    simp only [Except.ok.injEq] at h
    subst h
    rfl
  · intro k1 k2 k3 t s p i h
    unfold createRampAInstruction at h
    obtain ⟨a1, h1, h⟩ := exceptBind_ok h
    obtain ⟨a2, h2, h⟩ := exceptBind_ok h
    obtain ⟨a3, h3, h⟩ := exceptBind_ok h
    obtain ⟨a4, h4, h⟩ := exceptBind_ok h
    obtain ⟨a5, h5, h⟩ := exceptBind_ok h
    simp only [Except.ok.injEq] at h
    subst h
    rfl
  · intro k1 k2 k3 f p i h
    unfold createSetNewFeesInstruction at h
    obtain ⟨a1, h1, h⟩ := exceptBind_ok h
    obtain ⟨a2, h2, h⟩ := exceptBind_ok h
    simp only [Except.ok.injEq] at h
    subst h
    rfl
  · intro k1 k2 k3 r p i h
    unfold createSetNewRewardsInstruction at h
    obtain ⟨a1, h1, h⟩ := exceptBind_ok h
    obtain ⟨a2, h2, h⟩ := exceptBind_ok h
    simp only [Except.ok.injEq] at h
    subst h
    rfl

theorem c10_admin_signer_flags_witness :
    ((createAdminInitializeInstruction 3 4 5 7 ⟨0, 1000, 0, 1000, 1, 4, 0, 1000⟩
        ⟨1, 1000, 100⟩ 9).map (fun i => i.keys.map AccountMeta.isSigner) =
      .ok [true, true, false]) ∧
    ((createRampAInstruction 3 4 5 7 8 9).map
        (fun i => i.keys.map AccountMeta.isSigner) =
      .ok [true, false, true, false]) ∧
    ((createSetNewFeesInstruction 3 4 5 ⟨0, 1000, 0, 1000, 1, 4, 0, 1000⟩ 9).map
        (fun i => i.keys.map AccountMeta.isSigner) = .ok [true, false, true]) ∧
    ((createSetNewRewardsInstruction 3 4 5 ⟨1, 1000, 100⟩ 9).map
        (fun i => i.keys.map AccountMeta.isSigner) =
      .ok [true, false, true]) := by
  refine ⟨?_, ?_, ?_, ?_⟩
  · obtain ⟨i, hi⟩ : ∃ i, createAdminInitializeInstruction 3 4 5 7
        ⟨0, 1000, 0, 1000, 1, 4, 0, 1000⟩ ⟨1, 1000, 100⟩ 9 = .ok i := ⟨_, rfl⟩
    rw [hi]
    simp [Except.map, c10_admin_signer_flags.1 3 4 5 7 _ _ 9 i hi]
  · obtain ⟨i, hi⟩ : ∃ i, createRampAInstruction 3 4 5 7 8 9 = .ok i :=
      ⟨_, rfl⟩
    rw [hi]
    simp [Except.map, c10_admin_signer_flags.2.1 3 4 5 7 8 9 i hi]
  · obtain ⟨i, hi⟩ : ∃ i, createSetNewFeesInstruction 3 4 5
        ⟨0, 1000, 0, 1000, 1, 4, 0, 1000⟩ 9 = .ok i := ⟨_, rfl⟩
    rw [hi]
    simp [Except.map,
          c10_admin_signer_flags.2.2.2.2.2.2.2.2.1 3 4 5 _ 9 i hi]
  · obtain ⟨i, hi⟩ : ∃ i, createSetNewRewardsInstruction 3 4 5
        ⟨1, 1000, 100⟩ 9 = .ok i := ⟨_, rfl⟩
    rw [hi]
    simp [Except.map,
          c10_admin_signer_flags.2.2.2.2.2.2.2.2.2 3 4 5 _ 9 i hi]

